import Mathlib

/-!
Shallow embedding of the Monad DEX arbitrage bot core
(price_monitor.py, arbitrage_bot.py, transaction_executor.py, config.py).

Python floats are modelled by rationals; wei amounts by integers.
The Python round-half-even builtin is modelled by the half-up rounding of
Mathlib; the two differ only at exact half-cent midpoints, which none of
the properties below depend on.
-/

namespace MonadDex

/-! Configuration constants from config.py. -/

namespace ARBITRAGE_CONFIG

def mon_decimals : ℕ := 18

def min_profit_threshold : ℚ := 5 / 100

def max_trade_amount : ℚ := 1

def slippage_tolerance : ℚ := 1

end ARBITRAGE_CONFIG

namespace VOLUME_BOOSTING

def enabled : Bool := true

def target_dex : String := "monda"

def loss_tolerance : ℚ := 1

def min_trade_amount : ℚ := 7

def max_trade_amount : ℚ := 10

def include_gas_in_calculation : Bool := true

def volume_limit : ℚ := 55000

end VOLUME_BOOSTING

/-- Venue identifiers of the enabled routers in config.py (DEX_ROUTERS keys,
in insertion order). -/
def DEX_ROUTERS_names : List String := ["hakifi", "bean", "monda", "octo", "madness"]

/-! Quote results. PriceMonitor.get_token_price returns a triple
(price, amount_out, amount_in); every failure path returns (0, 0, 0). -/

/-- Result triple of PriceMonitor.get_token_price (price_monitor.py lines 199-254).
price is a Python float, the amounts are wei integers. -/
structure PriceResult where
  price : ℚ
  amount_out : ℤ
  amount_in : ℤ
deriving DecidableEq, Repr

/-- The value returned by get_token_price on any failed read
(price_monitor.py lines 205, 223, 254, 283, 288, 293, 347, 352). -/
def get_token_price_failure : PriceResult := ⟨0, 0, 0⟩

/-- Price formula of PriceMonitor.get_uniswap_v2_price (price_monitor.py line 273):
amount_out / amount_in scaled by 10 ^ (decimals_in - decimals_out).
The Algebra branch (line 337) computes the same expression. -/
def v2_price (amount_in amount_out : ℤ) (token_in_decimals token_out_decimals : ℕ) : ℚ :=
  (amount_out : ℚ) / (amount_in : ℚ) *
    (10 : ℚ) ^ ((token_in_decimals : ℤ) - (token_out_decimals : ℤ))

/-! Price aggregation: PriceMonitor.get_all_prices (price_monitor.py lines 131-197). -/

/-- The pair list built at lines 144-150: each configured pair followed by its
reverse pair. -/
def all_pairs (token_pairs : List (String × String)) : List (String × String) :=
  token_pairs.foldr (fun p acc => (p.1, p.2) :: (p.2, p.1) :: acc) []

/-- The per-pair venue map of get_all_prices (lines 184-188): one quote per venue,
keeping exactly the venues whose price is strictly positive. -/
def pair_prices_of (dex_names : List String) (quote : String → String × String → PriceResult)
    (pr : String × String) : List (String × ℚ) :=
  (dex_names.map (fun d => (d, (quote d pr).price))).filter (fun x => decide (0 < x.2))

/-- A PriceMap: the dict built by get_all_prices, modelled as an association list
from (token_in, token_out) to the per-venue price list, in insertion order. -/
abbrev PriceMap := List ((String × String) × List (String × ℚ))

/-- PriceMonitor.get_all_prices (lines 131-197): for every configured pair and its
reverse, collect the venues with a strictly positive price; a pair with no valid
venue is omitted from the result entirely (lines 190-195). -/
def get_all_prices (token_pairs : List (String × String)) (dex_names : List String)
    (quote : String → String × String → PriceResult) : PriceMap :=
  (all_pairs token_pairs).foldr
    (fun pr acc =>
      let pair_prices := pair_prices_of dex_names quote pr
      if pair_prices.isEmpty then acc else (pr, pair_prices) :: acc)
    []

/-! Opportunities. -/

/-- An opportunity dict as produced by check_pair_price_difference
(price_monitor.py lines 457-469) and find_volume_boosting_opportunities
(lines 764-775). The boosting dict carries no token_middle key, hence the
Option. -/
structure Opportunity where
  type : String
  token_in : String
  token_out : String
  token_middle : Option String
  buy_dex : String
  sell_dex : String
  max_trade_amount : ℚ
  expected_profit : ℚ
  expected_profit_percentage : ℚ
  token_out_amount : ℚ
  final_token_in : ℚ
deriving DecidableEq, Repr

/-- Python list.sort(key=expected_profit, reverse=True) at price_monitor.py
line 474: stable descending sort on expected_profit. -/
def sort_by_profit_desc (l : List Opportunity) : List Opportunity :=
  l.mergeSort (fun a b => decide (b.expected_profit ≤ a.expected_profit))

/-- Python list.sort(key=expected_profit_percentage, reverse=True) at
price_monitor.py line 783: stable descending sort on the percentage. -/
def sort_by_pct_desc (l : List Opportunity) : List Opportunity :=
  l.mergeSort (fun a b => decide (b.expected_profit_percentage ≤ a.expected_profit_percentage))

/-! Arbitrage evaluator: PriceMonitor.check_pair_price_difference
(price_monitor.py lines 354-480). The on-chain quotes are abstracted by
price_of dex token_in token_out amount_in_wei, standing for
get_token_price; any failed read yields get_token_price_failure. -/

/-- Best-sell selection (lines 398-409): fold over the valid forward quotes in
venue order, keeping the first venue with the strictly highest price.
The accumulator starts at price -1 with no venue, as in the source. -/
def best_sell_fold (dex_prices : List (String × PriceResult)) : ℚ × Option String × ℤ :=
  dex_prices.foldl
    (fun acc x => if acc.1 < x.2.price then (x.2.price, some x.1, x.2.amount_out) else acc)
    (-1, none, 0)

/-- One iteration of the reverse-leg loop (lines 438-471): a venue with a valid
reverse quote yields an opportunity exactly when its profit strictly exceeds
the minimum-profit threshold (line 456). -/
def arb_candidate (min_profit_threshold max_trade_amount : ℚ)
    (token_in_decimals token_out_decimals : ℕ)
    (price_of : String → String → String → ℤ → PriceResult)
    (token_in token_out best_sell_dex : String) (best_output_amount : ℤ)
    (buy_dex : String) : Option Opportunity :=
  let r := price_of buy_dex token_out token_in best_output_amount
  if 0 < r.price ∧ 0 < r.amount_out then
    let final_token_in : ℚ := (r.amount_out : ℚ) / 10 ^ token_in_decimals
    let profit := final_token_in - max_trade_amount
    if min_profit_threshold < profit then
      some { type := "simple"
             token_in := token_in
             token_out := token_out
             token_middle := some token_out
             buy_dex := buy_dex
             sell_dex := best_sell_dex
             max_trade_amount := max_trade_amount
             expected_profit := profit
             expected_profit_percentage := profit / max_trade_amount * 100
             token_out_amount := (best_output_amount : ℚ) / 10 ^ token_out_decimals
             final_token_in := final_token_in }
    else none
  else none

/-- PriceMonitor.check_pair_price_difference (lines 354-480). Python int()
on the nonnegative trade amount is floor. -/
def check_pair_price_difference (dex_names : List String)
    (min_profit_threshold max_trade_amount : ℚ)
    (token_in_decimals token_out_decimals : ℕ)
    (price_of : String → String → String → ℤ → PriceResult)
    (token_in token_out : String) : List Opportunity :=
  let amount_in_wei : ℤ := Int.floor (max_trade_amount * 10 ^ token_in_decimals)
  let dex_prices :=
    (dex_names.map (fun d => (d, price_of d token_in token_out amount_in_wei))).filter
      (fun x => decide (0 < x.2.price))
  if dex_prices.isEmpty then []
  else
    let best := best_sell_fold dex_prices
    if best.1 ≤ 0 ∨ best.2.2 ≤ 0 then []
    else
      let best_sell_dex := best.2.1.getD ""
      sort_by_profit_desc
        (dex_names.filterMap
          (arb_candidate min_profit_threshold max_trade_amount
            token_in_decimals token_out_decimals price_of token_in token_out
            best_sell_dex best.2.2))

/-- The arbitrage driver admission gate (arbitrage_bot.py lines 361-373):
the best opportunity is executed exactly when
expected_profit - estimated_gas_cost strictly exceeds min_profit_threshold. -/
def arb_admission (expected_profit estimated_gas_cost min_profit_threshold : ℚ) : Bool :=
  decide (min_profit_threshold < expected_profit - estimated_gas_cost)

/-! Volume-boosting evaluator: PriceMonitor.find_volume_boosting_opportunities
(price_monitor.py lines 657-788). The random.uniform draw of the loop body
(line 699) is an explicit input, one draw per trading pair. -/

/-- Python round(x, 2) at line 700. Python rounds half to even; this rounds
half up, which agrees everywhere except at exact half-cent midpoints. -/
def round2 (q : ℚ) : ℚ := ((round (q * 100) : ℤ) : ℚ) / 100

/-- Dict lookup on a PriceMap (the `key in prices` checks at lines 711, 735). -/
def pm_lookup (prices : PriceMap) (k : String × String) : Option (List (String × ℚ)) :=
  (prices.find? (fun e => decide (e.1 = k))).map (fun e => e.2)

/-- Dict lookup on a per-pair venue map (the `target_dex in prices[reverse_key]`
check at line 740). -/
def venue_lookup (m : List (String × ℚ)) (dex : String) : Option ℚ :=
  (m.find? (fun e => decide (e.1 = dex))).map (fun e => e.2)

/-- Best-sell selection of the boosting loop (lines 705-719): fold over the
forward venue map in order, starting from price 0 with no venue, keeping the
first venue of strictly highest price. -/
def boost_best_sell (pair_prices : List (String × ℚ)) : Option String × ℚ :=
  pair_prices.foldl (fun acc x => if acc.2 < x.2 then (some x.1, x.2) else acc) (none, 0)

/-- One iteration of the boosting loop body (lines 698-779) for a single
trading pair: pairs without forward prices, without a best sell venue, without
reverse prices, or whose reverse map lacks the target venue are skipped;
otherwise the candidate is accepted exactly when
profit_percentage is at least -loss_tolerance (line 761). -/
def boost_candidate (target_dex : String) (loss_tolerance : ℚ) (prices : PriceMap)
    (token_in token_out : String) (draw : ℚ) : Option Opportunity :=
  let trade_amount := round2 draw
  match pm_lookup prices (token_in, token_out) with
  | none => none
  | some fwd =>
    match boost_best_sell fwd with
    | (none, _) => none
    | (some best_sell_dex, best_sell_price) =>
      let best_output_amount := trade_amount * best_sell_price
      match pm_lookup prices (token_out, token_in) with
      | none => none
      | some rev =>
        match venue_lookup rev target_dex with
        | none => none
        | some target_buy_price =>
          let final_token_in := best_output_amount * target_buy_price
          let profit := final_token_in - trade_amount
          let profit_percentage := profit / trade_amount * 100
          if -loss_tolerance ≤ profit_percentage then
            some { type := "volume_boosting"
                   token_in := token_in
                   token_out := token_out
                   token_middle := none
                   buy_dex := target_dex
                   sell_dex := best_sell_dex
                   max_trade_amount := trade_amount
                   expected_profit := profit
                   expected_profit_percentage := profit_percentage
                   token_out_amount := best_output_amount
                   final_token_in := final_token_in }
          else none

/-- PriceMonitor.find_volume_boosting_opportunities (lines 657-788).
Trading pairs arrive as parsed (token_in, token_out) pairs (the source parses
"A-B" strings at lines 689-696); draws lists the fresh random.uniform value
used for each pair. -/
def find_volume_boosting_opportunities (enabled : Bool) (dex_names : List String)
    (target_dex : String) (loss_tolerance : ℚ)
    (trading_pairs : List (String × String)) (draws : List ℚ)
    (prices : PriceMap) : List Opportunity :=
  if ¬enabled then []
  else if ¬dex_names.contains target_dex then []
  else
    sort_by_pct_desc
      ((trading_pairs.zip draws).filterMap
        (fun pd => boost_candidate target_dex loss_tolerance prices pd.1.1 pd.1.2 pd.2))

/-- The boosting driver admission gate (arbitrage_bot.py lines 316-335): with
include_gas the tolerance is applied to the gas-adjusted percentage, otherwise
to the raw percentage; in both cases the opportunity proceeds exactly when the
compared percentage is at least -loss_tolerance (skip on strict violation). -/
def boost_driver_admits (include_gas : Bool)
    (expected_profit expected_profit_percentage estimated_gas_cost
      max_trade_amount loss_tolerance : ℚ) : Bool :=
  if include_gas then
    decide (-loss_tolerance ≤ (expected_profit - estimated_gas_cost) / max_trade_amount * 100)
  else
    decide (-loss_tolerance ≤ expected_profit_percentage)

/-! Per-swap submission: TransactionExecutor._swap_tokens_uniswap_v2
(transaction_executor.py lines 757-900) and _swap_tokens_algebra
(lines 902-1006). -/

/-- Minimum-output bound actually put on a UniswapV2 swap submission
(lines 784-800): when the incoming bound is 0 and the getAmountsOut quote
succeeds, the bound becomes the quoted output shrunk by the configured
slippage tolerance (Python int() truncation, i.e. floor on a nonnegative
value); when the quote raises, the incoming bound is kept unchanged and the
transaction is still built and sent. -/
def v2_submission_min_out (min_amount_out : ℤ) (quote_amounts_out : Option ℤ)
    (slippage_tolerance : ℚ) : ℤ :=
  match quote_amounts_out with
  | some expected_out =>
      if min_amount_out = 0 then
        Int.floor ((expected_out : ℚ) * (1 - slippage_tolerance / 100))
      else min_amount_out
  | none => min_amount_out

/-- Minimum-output bound put on an Algebra swap submission (lines 920-938):
when the incoming bound is 0 and the simulation succeeds, the bound becomes
99 percent of the simulated output (the source hardcodes 0.99 here rather
than reading the configured slippage tolerance); when the simulation raises,
0 is kept and the transaction is still sent. -/
def algebra_submission_min_out (min_amount_out : ℤ) (sim_expected_out : Option ℤ) : ℤ :=
  if min_amount_out = 0 then
    match sim_expected_out with
    | some expected_out => Int.floor ((expected_out : ℚ) * (99 / 100))
    | none => min_amount_out
  else min_amount_out

/-- The swap transaction as submitted: both _swap_tokens variants build, sign
and send the transaction unconditionally after the quote attempt (lines
802-866 and 950-976), so submitted is always true on this path. -/
structure SubmittedSwapTx where
  amount_in : ℤ
  min_amount_out : ℤ
  submitted : Bool
deriving DecidableEq, Repr

/-- The UniswapV2 submission path: quote attempt (possibly failing), then
unconditional submission with the resulting bound. -/
def v2_swap_submission (amount_in min_amount_out : ℤ) (quote_amounts_out : Option ℤ)
    (slippage_tolerance : ℚ) : SubmittedSwapTx :=
  { amount_in := amount_in
    min_amount_out := v2_submission_min_out min_amount_out quote_amounts_out slippage_tolerance
    submitted := true }

/-- The Algebra submission path. -/
def algebra_swap_submission (amount_in min_amount_out : ℤ) (sim_expected_out : Option ℤ) :
    SubmittedSwapTx :=
  { amount_in := amount_in
    min_amount_out := algebra_submission_min_out min_amount_out sim_expected_out
    submitted := true }

/-- Realized output computed after a confirmed swap (transaction_executor.py
lines 876-886, and identically lines 983-993): for the native asset the
difference of the post-transaction balance and the recorded pre-transaction
balance; for an ERC20 destination the full post-transaction balanceOf value
scaled by the token decimals, with no pre-transaction balance subtracted. -/
def swap_realized_output (token_out : String) (pre_tx_mon_balance final_mon_balance : ℚ)
    (erc20_balance_wei : ℤ) (token_out_decimals : ℕ) : ℚ :=
  if token_out = "MON" then final_mon_balance - pre_tx_mon_balance
  else (erc20_balance_wei : ℚ) / 10 ^ token_out_decimals

/-- Post-receipt environment of one swap: receipt status, the balances read
afterwards, and the transaction hash. -/
structure ReceiptEnv where
  status_ok : Bool
  pre_tx_mon_balance : ℚ
  final_mon_balance : ℚ
  erc20_balance_wei : ℤ
  tx_hash : String
deriving DecidableEq, Repr

/-- The value returned by _swap_tokens_uniswap_v2 and _swap_tokens_algebra
after confirmation (lines 872-894 and 979-1000): on receipt status 1 the
triple (true, hash, realized output from balances); on a mined-but-reverted
receipt the triple (false, hash, 0). expected_out is the quoted output held
in scope at this point; it does not enter the returned amount. -/
def swap_confirm_result (token_out : String) (token_out_decimals : ℕ)
    (expected_out : ℤ) (r : ReceiptEnv) : Bool × Option String × ℚ :=
  if r.status_ok then
    (true, some r.tx_hash,
      swap_realized_output token_out r.pre_tx_mon_balance r.final_mon_balance
        r.erc20_balance_wei token_out_decimals)
  else (false, some r.tx_hash, 0)

/-! Execution coordinator: ArbitrageBot.execute_cross_dex_arbitrage
(arbitrage_bot.py lines 416-666). -/

/-- The triple returned by TransactionExecutor.swap_tokens:
(success, tx hash or None, realized output in human units). -/
structure SwapCall where
  success : Bool
  tx_hash : Option String
  amount_out : ℚ
deriving DecidableEq, Repr

/-- The on-chain environment one execution runs against: the two leg results
and the balance and gas reads made around them. -/
structure ExecEnv where
  leg1 : SwapCall
  leg2 : SwapCall
  initial_balance : ℚ
  final_balance : ℚ
  estimated_gas_cost : ℚ
deriving DecidableEq, Repr

/-- A trade_history entry (arbitrage_bot.py lines 602-621 for success,
lines 639-656 for the exception path). Fields absent from a given dict are
none. -/
structure TradeRecord where
  type : String
  status : String
  error : Option String
  token_in : Option String
  token_out : Option String
  sell_dex : Option String
  buy_dex : Option String
  amount : Option ℚ
  initial_balance : Option ℚ
  final_balance : Option ℚ
  token_out_amount : Option ℚ
  token_middle_amount : Option ℚ
  profit : Option ℚ
  profit_percentage : Option ℚ
  estimated_gas : Option ℚ
  net_profit : Option ℚ
  sell_tx_hash : Option (Option String)
  buy_tx_hash : Option (Option String)
deriving DecidableEq, Repr

/-- What one call of execute_cross_dex_arbitrage does to the bot: whether it
returned success, which trade_history record (if any) it appended, and how
much it added to the USDC volume counter. -/
structure ExecOutcome where
  success : Bool
  record_appended : Option TradeRecord
  volume_added : ℚ
deriving DecidableEq, Repr

/-- The record appended by the exception handler of execute_cross_dex_arbitrage
(lines 637-658): type, error and status plus whatever locals were bound at the
raise site. At the only raise site of the modelled body (the division by
amount_in at line 533) token_in, final_token_name (equal to token_in), both
venues and amount_in are bound, and no transaction hash is ever copied into
the record. -/
def execute_exception_record (is_volume_boosting : Bool) (opp : Opportunity)
    (e : String) : TradeRecord :=
  { type := if is_volume_boosting then "volume_boosting" else "arbitrage"
    status := "failed"
    error := some e
    token_in := some opp.token_in
    token_out := some opp.token_in
    sell_dex := some opp.sell_dex
    buy_dex := some opp.buy_dex
    amount := some opp.max_trade_amount
    initial_balance := none
    final_balance := none
    token_out_amount := none
    token_middle_amount := none
    profit := none
    profit_percentage := none
    estimated_gas := none
    net_profit := none
    sell_tx_hash := none
    buy_tx_hash := none }

/-- The body of execute_cross_dex_arbitrage (lines 418-630) as run inside its
try block. Step 1 failure returns at line 484 and step 2 failure at line 515,
in both cases with no record appended; on line 533 a zero amount_in raises
ZeroDivisionError into the handler; otherwise the success record of lines
602-621 is appended and, in boosting mode with a USDC middle asset, the
volume counter grows by the step-1 output (lines 574, 588). In the source
final_token_name is always token_in (lines 504, 511), so the arbitrage
profit branch at line 529 is dead and profit is always the balance delta. -/
def execute_body (is_volume_boosting include_gas : Bool) (opp : Opportunity)
    (env : ExecEnv) : Except String ExecOutcome :=
  let token_in := opp.token_in
  let amount_in := opp.max_trade_amount
  if ¬env.leg1.success then
    .ok { success := false, record_appended := none, volume_added := 0 }
  else
    let token_middle_amount := env.leg1.amount_out
    if ¬env.leg2.success then
      .ok { success := false, record_appended := none, volume_added := 0 }
    else
      let final_token_name := token_in
      let profit :=
        if is_volume_boosting then env.final_balance - env.initial_balance
        else if token_in ≠ final_token_name then env.final_balance - amount_in
        else env.final_balance - env.initial_balance
      if amount_in = 0 then .error "ZeroDivisionError: float division by zero"
      else
        let profit_pct := profit / amount_in * 100
        let estimated_gas_cost := env.estimated_gas_cost
        let actual_profit := profit - estimated_gas_cost
        let record : TradeRecord :=
          { type := if is_volume_boosting then "volume_boosting" else "arbitrage"
            status := "success"
            error := none
            token_in := some token_in
            token_out := some final_token_name
            sell_dex := some opp.sell_dex
            buy_dex := some opp.buy_dex
            amount := some amount_in
            initial_balance := some env.initial_balance
            final_balance := some env.final_balance
            token_out_amount := some env.leg2.amount_out
            token_middle_amount := some token_middle_amount
            profit := some profit
            profit_percentage := some profit_pct
            estimated_gas := some estimated_gas_cost
            net_profit :=
              some (if is_volume_boosting ∧ ¬include_gas then profit else actual_profit)
            sell_tx_hash := some env.leg2.tx_hash
            buy_tx_hash := some env.leg1.tx_hash }
        .ok { success := true
              record_appended := some record
              volume_added :=
                if is_volume_boosting ∧ opp.token_out = "USDC" then token_middle_amount
                else 0 }

/-- ArbitrageBot.execute_cross_dex_arbitrage (lines 416-666): the body wrapped
in the except handler of lines 632-666, which captures every exception,
appends the failure record and returns a failure value instead of raising. -/
def execute_cross_dex_arbitrage (is_volume_boosting include_gas : Bool)
    (opp : Opportunity) (env : ExecEnv) : ExecOutcome :=
  match execute_body is_volume_boosting include_gas opp env with
  | .ok outcome => outcome
  | .error e =>
      { success := false
        record_appended := some (execute_exception_record is_volume_boosting opp e)
        volume_added := 0 }

/-! Driver state: ArbitrageBot.find_and_execute_arbitrage
(arbitrage_bot.py lines 199-414) and the run loop (lines 693-717). -/

/-- The mutable bot state the driver threads through cycles. -/
structure BotState where
  last_trade_time : ℚ
  total_volume_usdc : ℚ
  trade_history_len : ℕ
  alive : Bool
deriving DecidableEq, Repr

/-- The per-pair trade block of find_and_execute_arbitrage around the
execution call (lines 349 and 389, then line 392): execute_cross_dex_arbitrage
is awaited and, because it returns a value for every environment instead of
raising, the shared last_trade_time is then assigned the completion time on
success and failure alike. -/
def run_trade_and_stamp (is_volume_boosting include_gas : Bool) (opp : Opportunity)
    (env : ExecEnv) (st : BotState) (t_completion : ℚ) : BotState :=
  let outcome := execute_cross_dex_arbitrage is_volume_boosting include_gas opp env
  { st with
    last_trade_time := t_completion
    total_volume_usdc := st.total_volume_usdc + outcome.volume_added
    trade_history_len :=
      st.trade_history_len + (if outcome.record_appended.isSome then 1 else 0) }

/-- One executed boosting trade as seen by the volume counter (lines 572-575,
586-589): the middle-asset name and the step-1 output amount. -/
structure ExecutedTrade where
  token_out : String
  token_middle_amount : ℚ
deriving DecidableEq, Repr

/-- One boosting-mode cycle of find_and_execute_arbitrage (lines 199-414):
the cycle first compares the volume counter against the ceiling (lines
224-232) and calls sys.exit(0) when total_volume_usdc is at least the limit.
SystemExit is not an Exception subclass, so it escapes every handler of the
driver (lines 411, 710-713, 725) and terminates the process: modelled as
alive becoming false with no trade executed. Below the ceiling the cycle
executes its trades, each adding its middle amount to the counter when the
middle asset is USDC. The returned number counts the boosting trades the
cycle executed. -/
def boosting_cycle (volume_limit : ℚ) (st : BotState) (trades : List ExecutedTrade) :
    BotState × ℕ :=
  if ¬st.alive then (st, 0)
  else if volume_limit ≤ st.total_volume_usdc then
    ({ st with alive := false }, 0)
  else
    (trades.foldl
      (fun s tr =>
        { s with total_volume_usdc := s.total_volume_usdc +
            (if tr.token_out = "USDC" then tr.token_middle_amount else 0) })
      st,
     trades.length)

/-- The run loop (lines 693-717) iterating boosting cycles, accumulating the
number of boosting trades executed. -/
def run_boosting_cycles (volume_limit : ℚ) (st : BotState)
    (cycles : List (List ExecutedTrade)) : BotState × ℕ :=
  cycles.foldl
    (fun acc c =>
      let r := boosting_cycle volume_limit acc.1 c
      (r.1, acc.2 + r.2))
    (st, 0)

/-! Concrete inputs used to settle individual properties. -/

/-- Projection of an Opportunity to its venue pairing and profit percentage. -/
def opp_venue_pct (o : Opportunity) : String × String × ℚ :=
  (o.sell_dex, o.buy_dex, o.expected_profit_percentage)

/-- A quote environment in which venue hakifi round-trips 1 MON into 2 USDC
and those 2 USDC back into 2 MON: the forward read (from MON) returns price 2
with 2000000 wei of six-decimal USDC out, the reverse read returns price 2
with 2 MON (in 18-decimal wei) out. -/
def cex_price_of : String → String → String → ℤ → PriceResult :=
  fun _ token_in _ amount_in =>
    if token_in = "MON" then ⟨2, 2000000, amount_in⟩ else ⟨2, 2 * 10 ^ 18, amount_in⟩

/-- The single opportunity the arbitrage evaluator emits under cex_price_of:
it sells and buys back on the same venue. -/
def cex_same_venue_opp : Opportunity :=
  { type := "simple"
    token_in := "MON"
    token_out := "USDC"
    token_middle := some "USDC"
    buy_dex := "hakifi"
    sell_dex := "hakifi"
    max_trade_amount := 1
    expected_profit := 1
    expected_profit_percentage := 100
    token_out_amount := 2
    final_token_in := 2 }

/-- A price map for the boosting evaluator: hakifi sells MON at 1 USDC each
and the target venue monda buys back at 0.995 MON per USDC, a 0.5 percent
round-trip loss. -/
def cex_boost_prices : PriceMap :=
  [(("MON", "USDC"), [("hakifi", 1)]),
   (("USDC", "MON"), [("monda", 995 / 1000)])]

/-- The same map with monda buying back at 0.985 MON per USDC, a 1.5 percent
round-trip loss. -/
def cex_boost_prices_bad : PriceMap :=
  [(("MON", "USDC"), [("hakifi", 1)]),
   (("USDC", "MON"), [("monda", 985 / 1000)])]

/-- An opportunity whose execution is driven below. -/
def cex_exec_opp : Opportunity :=
  { type := "simple"
    token_in := "MON"
    token_out := "USDC"
    token_middle := some "USDC"
    buy_dex := "bean"
    sell_dex := "hakifi"
    max_trade_amount := 1
    expected_profit := 1
    expected_profit_percentage := 100
    token_out_amount := 2
    final_token_in := 2 }

/-- Scenario: Leg1 confirms with hash 0xleg1, Leg2 is mined but reverts, so
swap_tokens reports (False, 0xleg2, 0) for it. -/
def cex_leg2_fail_env : ExecEnv :=
  { leg1 := { success := true, tx_hash := some "0xleg1", amount_out := 2 }
    leg2 := { success := false, tx_hash := some "0xleg2", amount_out := 0 }
    initial_balance := 100
    final_balance := 100
    estimated_gas_cost := 1 / 1000 }

/-- The same scenario with Leg2 confirming as well. -/
def cex_both_legs_env : ExecEnv :=
  { leg1 := { success := true, tx_hash := some "0xleg1", amount_out := 2 }
    leg2 := { success := true, tx_hash := some "0xleg2", amount_out := 101 / 100 }
    initial_balance := 100
    final_balance := 100 + 1 / 100
    estimated_gas_cost := 1 / 1000 }

/-- Aggregation example: venue a fails its forward read (price 0) while venue
b quotes price 2; every reverse read fails. -/
def cex_agg_quote : String → String × String → PriceResult :=
  fun d pr =>
    if pr = ("MON", "USDC") then
      if d = "b" then ⟨2, 2000000, 10 ^ 18⟩ else get_token_price_failure
    else get_token_price_failure

/-! Helper lemmas. -/

/-- A draw of at least one unit stays positive after rounding to two decimals. -/
theorem round2_pos (r : ℚ) (h : 1 ≤ r) : 0 < round2 r := by
  have h1 : (100 : ℤ) ≤ round (r * 100) := by
    rw [round_eq]
    exact Int.le_floor.mpr (by push_cast; linarith)
  have h2 : (100 : ℚ) ≤ ((round (r * 100) : ℤ) : ℚ) := by exact_mod_cast h1
  unfold round2
  linarith

/-- filterMap with a pointwise-weaker partial function yields no more elements. -/
theorem length_filterMap_mono {α β : Type} (f g : α → Option β)
    (h : ∀ a b, f a = some b → g a = some b) (l : List α) :
    (l.filterMap f).length ≤ (l.filterMap g).length := by
  induction l with
  | nil => simp
  | cons a tl ih =>
    simp only [List.filterMap_cons]
    cases hf : f a with
    | none =>
      cases hg : g a with
      | none => exact ih
      | some b => exact ih.trans (Nat.le_succ _)
    | some b =>
      rw [h a b hf]
      simpa using ih

/-! C3. The claim states that the realized output of every confirmed leg is
the post-transaction balance delta of the destination asset, for ERC20
destinations as well as the native one. -/

/-- C3 counterexample: with a pre-transaction balance of 5 USDC (5000000 wei)
and a post-transaction balance of 8 USDC (8000000 wei), the executor reports
8 USDC as the realized output, not the 3 USDC balance delta the claim
requires (transaction_executor.py lines 882-886: the balanceOf value is used
without subtracting the pre-transaction balance). -/
theorem erc20_realized_output_not_delta :
    swap_realized_output "USDC" 0 0 8000000 6 = 8 ∧
    swap_realized_output "USDC" 0 0 8000000 6 ≠ ((8000000 - 5000000 : ℤ) : ℚ) / 10 ^ 6 := by
  have hs : ("USDC" : String) ≠ "MON" := by decide
  constructor <;> simp [swap_realized_output, hs] <;> norm_num

/-- C3 amended: the realized output of a confirmed leg is the balance delta
for the native asset but the full post-transaction balance for an ERC20
destination, and in either case it is independent of the simulated or quoted
output amount. -/
theorem swap_realized_output_characterization (pre fin : ℚ) (wei : ℤ) (dec : ℕ)
    (tout : String) (e1 e2 : ℤ) (r : ReceiptEnv) :
    swap_realized_output "MON" pre fin wei dec = fin - pre ∧
    (tout ≠ "MON" → swap_realized_output tout pre fin wei dec = (wei : ℚ) / 10 ^ dec) ∧
    swap_confirm_result tout dec e1 r = swap_confirm_result tout dec e2 r := by
  refine ⟨by simp [swap_realized_output], fun h => by simp [swap_realized_output, h], rfl⟩

/-- C3 witness: the amended statement evaluated on the counterexample data. -/
theorem swap_realized_output_characterization_witness :
    swap_realized_output "USDC" 3 4 8000000 6 = ((8000000 : ℤ) : ℚ) / 10 ^ 6 :=
  (swap_realized_output_characterization 3 4 8000000 6 "USDC" 0 0
    ⟨true, 0, 0, 0, "h"⟩).2.1 (by decide)

/-! C4. The claim states that no real swap submission ever carries a
minimum-output bound of 0. -/

/-- C4 counterexample: when the pre-submission quote raises (getAmountsOut at
transaction_executor.py line 785, the Algebra simulation at lines 922-937),
both swap paths log a warning and still build, sign and send the transaction
with a minimum output of 0. -/
theorem failed_quote_submits_zero_min_out :
    (v2_swap_submission (10 ^ 18) 0 none ARBITRAGE_CONFIG.slippage_tolerance).submitted = true ∧
    (v2_swap_submission (10 ^ 18) 0 none ARBITRAGE_CONFIG.slippage_tolerance).min_amount_out = 0 ∧
    (algebra_swap_submission (10 ^ 18) 0 none).submitted = true ∧
    (algebra_swap_submission (10 ^ 18) 0 none).min_amount_out = 0 := by
  refine ⟨rfl, rfl, rfl, by simp [algebra_swap_submission, algebra_submission_min_out]⟩

/-- C4 amended: a submission whose pre-quote succeeds carries the
slippage-derived floor (positive whenever the shrunk quote is at least one
wei); a submission whose pre-quote fails keeps the caller-supplied bound,
which is 0 on every call made by the bot, and is submitted anyway. -/
theorem submission_min_out_characterization (a m e : ℤ) (s : ℚ) :
    (v2_swap_submission a 0 (some e) s).min_amount_out
        = Int.floor ((e : ℚ) * (1 - s / 100)) ∧
    (1 ≤ (e : ℚ) * (1 - s / 100) →
      0 < (v2_swap_submission a 0 (some e) s).min_amount_out) ∧
    (v2_swap_submission a m none s).min_amount_out = m ∧
    (v2_swap_submission a m none s).submitted = true ∧
    (algebra_swap_submission a 0 (some e)).min_amount_out
        = Int.floor ((e : ℚ) * (99 / 100)) ∧
    (algebra_swap_submission a 0 none).min_amount_out = 0 := by
  refine ⟨by simp [v2_swap_submission, v2_submission_min_out], ?_, rfl, rfl,
    by simp [algebra_swap_submission, algebra_submission_min_out],
    by simp [algebra_swap_submission, algebra_submission_min_out]⟩
  intro h
  have h1 : (1 : ℤ) ≤ Int.floor ((e : ℚ) * (1 - s / 100)) :=
    Int.le_floor.mpr (by exact_mod_cast h)
  have h2 : (v2_swap_submission a 0 (some e) s).min_amount_out
      = Int.floor ((e : ℚ) * (1 - s / 100)) := by
    simp [v2_swap_submission, v2_submission_min_out]
  omega

/-- C4 witness: a successful 2000000-wei quote at the configured 1 percent
slippage yields the positive floor 1980000. -/
theorem submission_min_out_characterization_witness :
    0 < (v2_swap_submission (10 ^ 18) 0 (some 2000000)
          ARBITRAGE_CONFIG.slippage_tolerance).min_amount_out :=
  (submission_min_out_characterization (10 ^ 18) 0 2000000
      ARBITRAGE_CONFIG.slippage_tolerance).2.1
    (by norm_num [ARBITRAGE_CONFIG.slippage_tolerance])

/-! C1. The claim states that execution always returns a TradeRecord, every
failure being captured into a failed record, and that a Leg2 revert after a
successful Leg1 yields a failed record carrying the Leg1 hash. -/

/-- C1 counterexample: Leg1 confirms (hash 0xleg1) and Leg2 reverts; the
coordinator returns failure from line 515 of arbitrage_bot.py without
appending any trade record at all, so no failed TradeRecord with the Leg1
hash exists. -/
theorem leg2_failure_appends_no_record :
    (execute_cross_dex_arbitrage false true cex_exec_opp cex_leg2_fail_env).record_appended
      = none ∧
    (execute_cross_dex_arbitrage false true cex_exec_opp cex_leg2_fail_env).success
      = false :=
  ⟨rfl, rfl⟩

/-- C1 amended: execution never raises past its boundary, returning an
outcome for every environment; a leg failure returns failure with no record
appended (and in particular no record holding the Leg1 hash); only full
success appends a record, which carries both hashes and status success; an
exception inside the body is caught and appended as a failed record with the
partial context in scope but no transaction hash. -/
theorem execute_cross_dex_arbitrage_outcomes (vb ig : Bool) (opp : Opportunity)
    (env : ExecEnv) :
    (env.leg1.success = false →
      execute_cross_dex_arbitrage vb ig opp env
        = { success := false, record_appended := none, volume_added := 0 }) ∧
    (env.leg1.success = true → env.leg2.success = false →
      execute_cross_dex_arbitrage vb ig opp env
        = { success := false, record_appended := none, volume_added := 0 }) ∧
    (env.leg1.success = true → env.leg2.success = true → opp.max_trade_amount ≠ 0 →
      (execute_cross_dex_arbitrage vb ig opp env).success = true ∧
      (execute_cross_dex_arbitrage vb ig opp env).record_appended.map TradeRecord.status
        = some "success" ∧
      (execute_cross_dex_arbitrage vb ig opp env).record_appended.map TradeRecord.buy_tx_hash
        = some (some env.leg1.tx_hash) ∧
      (execute_cross_dex_arbitrage vb ig opp env).record_appended.map TradeRecord.sell_tx_hash
        = some (some env.leg2.tx_hash)) ∧
    (env.leg1.success = true → env.leg2.success = true → opp.max_trade_amount = 0 →
      execute_cross_dex_arbitrage vb ig opp env
        = { success := false
            record_appended := some (execute_exception_record vb opp
              "ZeroDivisionError: float division by zero")
            volume_added := 0 }) := by
  refine ⟨fun h1 => ?_, fun h1 h2 => ?_, fun h1 h2 h3 => ?_, fun h1 h2 h3 => ?_⟩
  · simp [execute_cross_dex_arbitrage, execute_body, h1]
  · simp [execute_cross_dex_arbitrage, execute_body, h1, h2]
  · simp [execute_cross_dex_arbitrage, execute_body, h1, h2, h3]
  · simp [execute_cross_dex_arbitrage, execute_body, h1, h2, h3]

/-- C1 witness: the amended statement applied to the Leg2-revert scenario. -/
theorem execute_cross_dex_arbitrage_outcomes_witness :
    execute_cross_dex_arbitrage false true cex_exec_opp cex_leg2_fail_env
      = { success := false, record_appended := none, volume_added := 0 } :=
  (execute_cross_dex_arbitrage_outcomes false true cex_exec_opp cex_leg2_fail_env).2.1
    rfl rfl

/-! C10. The claim states that the shared last-trade timestamp is updated to
the completion time after every execution attempt, failed legs included, and
that the execution call never propagates an exception skipping the update. -/

/-- C10: after the awaited execution call returns (it returns a value for
every environment, the handler of arbitrage_bot.py lines 632-666 absorbing
every exception), line 392 assigns the completion time to last_trade_time,
on failed legs and on exceptions inside the body alike. -/
theorem execute_always_stamps_last_trade_time (vb ig : Bool) (opp : Opportunity)
    (env : ExecEnv) (st : BotState) (t : ℚ) :
    (run_trade_and_stamp vb ig opp env st t).last_trade_time = t ∧
    (env.leg2.success = false →
      (run_trade_and_stamp vb ig opp env st t).last_trade_time = t) ∧
    (execute_body vb ig opp env = .error "ZeroDivisionError: float division by zero" →
      (run_trade_and_stamp vb ig opp env st t).last_trade_time = t) :=
  ⟨rfl, fun _ => rfl, fun _ => rfl⟩

/-- C10 witness: the timestamp is stamped with the completion time 42 even
when Leg2 reverted. -/
theorem execute_always_stamps_last_trade_time_witness :
    (run_trade_and_stamp false true cex_exec_opp cex_leg2_fail_env
      { last_trade_time := 0, total_volume_usdc := 0, trade_history_len := 0, alive := true }
      42).last_trade_time = 42 :=
  (execute_always_stamps_last_trade_time false true cex_exec_opp cex_leg2_fail_env
    { last_trade_time := 0, total_volume_usdc := 0, trade_history_len := 0, alive := true }
    42).2.1 rfl

/-! C6. The claim states that once the USDC volume counter reaches the
configured ceiling, no later cycle ever executes another boosting trade. -/

/-- Once a cycle boundary is reached with the process dead or the counter at
or above the ceiling, every later cycle executes zero trades and leaves the
counter unchanged. -/
theorem run_boosting_cycles_aux (volume_limit : ℚ)
    (cycles : List (List ExecutedTrade)) :
    ∀ st : BotState, ∀ acc : ℕ,
      (st.alive = false ∨ volume_limit ≤ st.total_volume_usdc) →
      (cycles.foldl
        (fun acc c =>
          let r := boosting_cycle volume_limit acc.1 c
          (r.1, acc.2 + r.2))
        (st, acc)).2 = acc := by
  induction cycles with
  | nil => intro st acc _; rfl
  | cons c tl ih =>
    intro st acc hinv
    rcases hinv with hdead | hvol
    · have hc : boosting_cycle volume_limit st c = (st, 0) := by
        simp [boosting_cycle, hdead]
      simp only [List.foldl_cons, hc]
      exact ih st (acc + 0) (Or.inl hdead)
    · by_cases hdead : st.alive = false
      · have hc : boosting_cycle volume_limit st c = (st, 0) := by
          simp [boosting_cycle, hdead]
        simp only [List.foldl_cons, hc]
        exact ih st (acc + 0) (Or.inl hdead)
      · have hc : boosting_cycle volume_limit st c = ({ st with alive := false }, 0) := by
          simp only [boosting_cycle, Bool.not_eq_false] at hdead ⊢
          rw [if_neg (by simp [hdead]), if_pos hvol]
        simp only [List.foldl_cons, hc]
        exact ih _ (acc + 0) (Or.inl rfl)

/-- C6: once the cumulative USDC volume counter is at or above the configured
ceiling at a cycle boundary, the ceiling check of arbitrage_bot.py lines
224-232 terminates the process (sys.exit, which no handler in the driver
catches), so every subsequent cycle executes zero boosting trades. -/
theorem volume_ceiling_terminal (volume_limit : ℚ) (st : BotState)
    (cycles : List (List ExecutedTrade))
    (h : volume_limit ≤ st.total_volume_usdc) :
    (run_boosting_cycles volume_limit st cycles).2 = 0 :=
  run_boosting_cycles_aux volume_limit cycles st 0 (Or.inr h)

/-- C6 witness: with the configured 55000 USDC ceiling already met, two
further cycles each offering a 10-USDC boosting trade execute none of them. -/
theorem volume_ceiling_terminal_witness :
    (run_boosting_cycles VOLUME_BOOSTING.volume_limit
      { last_trade_time := 0, total_volume_usdc := 55000, trade_history_len := 0,
        alive := true }
      [[{ token_out := "USDC", token_middle_amount := 10 }],
       [{ token_out := "USDC", token_middle_amount := 10 }]]).2 = 0 :=
  volume_ceiling_terminal VOLUME_BOOSTING.volume_limit
    { last_trade_time := 0, total_volume_usdc := 55000, trade_history_len := 0,
      alive := true }
    [[{ token_out := "USDC", token_middle_amount := 10 }],
     [{ token_out := "USDC", token_middle_amount := 10 }]]
    (by norm_num [VOLUME_BOOSTING.volume_limit])

/-! C7. The claim states that aggregation drops every quote with price at or
below 0 (failed reads and zero outputs included) and omits a pair entirely
when no venue has a valid quote. -/

/-- Membership in the aggregated map, characterized per pair. -/
theorem mem_get_all_prices_aux (dex_names : List String)
    (quote : String → String × String → PriceResult)
    (l : List (String × String)) (pr : String × String) (m : List (String × ℚ)) :
    ((pr, m) ∈ l.foldr
      (fun pr acc =>
        let pair_prices := pair_prices_of dex_names quote pr
        if pair_prices.isEmpty then acc else (pr, pair_prices) :: acc)
      []) ↔
      (pr ∈ l ∧ pair_prices_of dex_names quote pr ≠ [] ∧
        m = pair_prices_of dex_names quote pr) := by
  induction l with
  | nil => simp
  | cons a tl ih =>
    simp only [List.foldr_cons]
    by_cases ha : (pair_prices_of dex_names quote a).isEmpty
    · rw [if_pos ha, ih]
      have ha2 : pair_prices_of dex_names quote a = [] := by
        simpa [List.isEmpty_iff] using ha
      constructor
      · rintro ⟨hmem, hne, hm⟩
        exact ⟨List.mem_cons_of_mem _ hmem, hne, hm⟩
      · rintro ⟨hmem, hne, hm⟩
        rcases List.mem_cons.mp hmem with rfl | hmem2
        · exact absurd ha2 hne
        · exact ⟨hmem2, hne, hm⟩
    · rw [if_neg ha]
      have ha2 : pair_prices_of dex_names quote a ≠ [] := by
        simpa [List.isEmpty_iff] using ha
      constructor
      · intro hmem
        rcases List.mem_cons.mp hmem with heq | hmem2
        · injection heq with h1 h2
          subst h1
          exact ⟨List.mem_cons_self _ _, ha2, h2⟩
        · obtain ⟨hmem3, hne, hm⟩ := ih.mp hmem2
          exact ⟨List.mem_cons_of_mem _ hmem3, hne, hm⟩
      · rintro ⟨hmem, hne, hm⟩
        rcases List.mem_cons.mp hmem with rfl | hmem2
        · exact List.mem_cons.mpr (Or.inl (by rw [hm]))
        · exact List.mem_cons_of_mem _ (ih.mpr ⟨hmem2, hne, hm⟩)

/-- The per-pair venue map keeps exactly the venues with positive price. -/
theorem pair_prices_of_spec (dex_names : List String)
    (quote : String → String × String → PriceResult) (pr : String × String) :
    (pair_prices_of dex_names quote pr ≠ [] ↔
      ∃ d ∈ dex_names, 0 < (quote d pr).price) ∧
    ∀ x ∈ pair_prices_of dex_names quote pr,
      0 < x.2 ∧ x.2 = (quote x.1 pr).price ∧ x.1 ∈ dex_names := by
  constructor
  · rw [Ne, pair_prices_of, List.filter_eq_nil_iff]
    push_neg
    constructor
    · rintro ⟨x, hx, hpos⟩
      obtain ⟨d, hd, rfl⟩ := List.mem_map.mp hx
      exact ⟨d, hd, by simpa using hpos⟩
    · rintro ⟨d, hd, hpos⟩
      exact ⟨(d, (quote d pr).price), List.mem_map.mpr ⟨d, hd, rfl⟩, by simpa using hpos⟩
  · intro x hx
    obtain ⟨hx1, hx2⟩ := List.mem_filter.mp hx
    obtain ⟨d, hd, rfl⟩ := List.mem_map.mp hx1
    exact ⟨by simpa using hx2, rfl, hd⟩

/-- C7: the aggregated PriceMap has an entry for a pair exactly when some
venue returned a strictly positive price for it; every stored price is the
positive quoted price of its venue; a quote with zero output has price 0 and
a failed read yields the (0, 0, 0) triple, so both are excluded. -/
theorem price_aggregation_excludes_invalid (token_pairs : List (String × String))
    (dex_names : List String) (quote : String → String × String → PriceResult)
    (pr : String × String) :
    ((∃ m, (pr, m) ∈ get_all_prices token_pairs dex_names quote) ↔
      (pr ∈ all_pairs token_pairs ∧ ∃ d ∈ dex_names, 0 < (quote d pr).price)) ∧
    (∀ m, (pr, m) ∈ get_all_prices token_pairs dex_names quote →
      m ≠ [] ∧ ∀ x ∈ m, 0 < x.2 ∧ x.2 = (quote x.1 pr).price ∧ x.1 ∈ dex_names) ∧
    (∀ a : ℤ, ∀ din dout : ℕ, v2_price a 0 din dout = 0) ∧
    get_token_price_failure.price = 0 := by
  refine ⟨?_, ?_, ?_, rfl⟩
  · constructor
    · rintro ⟨m, hm⟩
      obtain ⟨h1, h2, _⟩ := (mem_get_all_prices_aux dex_names quote _ pr m).mp hm
      exact ⟨h1, (pair_prices_of_spec dex_names quote pr).1.mp h2⟩
    · rintro ⟨h1, h2⟩
      exact ⟨pair_prices_of dex_names quote pr,
        (mem_get_all_prices_aux dex_names quote _ pr _).mpr
          ⟨h1, (pair_prices_of_spec dex_names quote pr).1.mpr h2, rfl⟩⟩
  · intro m hm
    obtain ⟨_, h2, rfl⟩ := (mem_get_all_prices_aux dex_names quote _ pr m).mp hm
    exact ⟨h2, (pair_prices_of_spec dex_names quote pr).2⟩
  · intro a din dout
    simp [v2_price]

/-- C7 witness: on the aggregation example the MON-USDC entry stores venue b
with its positive price 2 (the failed venue a being dropped). -/
theorem price_aggregation_excludes_invalid_witness :
    0 < (2 : ℚ) ∧ (2 : ℚ) = (cex_agg_quote "b" ("MON", "USDC")).price ∧
      "b" ∈ ["a", "b"] :=
  ((price_aggregation_excludes_invalid [("MON", "USDC")] ["a", "b"] cex_agg_quote
      ("MON", "USDC")).2.1 [("b", 2)]
    (by
      simp [get_all_prices, all_pairs, pair_prices_of, cex_agg_quote,
        get_token_price_failure])).2
    ("b", 2) (List.mem_singleton.mpr rfl)

/-! C8. The claim states that the boosting evaluator accepts exactly when
profitPercent is at least -lossTolerance (inclusive), and that the driver
applies the same inclusive comparison to the gas-adjusted profit when the
include-gas flag is on. -/

/-- C8: given a forward map with a best sell venue and a reverse price at the
target venue, the boosting candidate is emitted iff the computed percentage
is at least -lossTolerance; the driver gate admits under the identical
inclusive comparison on the gas-adjusted (flag on) or raw (flag off)
percentage. -/
theorem boost_loss_tolerance_inclusive
    (target token_in token_out : String) (tol draw : ℚ) (prices : PriceMap)
    (fwd rev : List (String × ℚ)) (sdex : String) (sprice bprice : ℚ)
    (hfwd : pm_lookup prices (token_in, token_out) = some fwd)
    (hbest : boost_best_sell fwd = (some sdex, sprice))
    (hrev : pm_lookup prices (token_out, token_in) = some rev)
    (htgt : venue_lookup rev target = some bprice)
    (p pc g amt : ℚ) :
    ((boost_candidate target tol prices token_in token_out draw).isSome = true ↔
      -tol ≤ (round2 draw * sprice * bprice - round2 draw) / round2 draw * 100) ∧
    (boost_driver_admits true p pc g amt tol = true ↔ -tol ≤ (p - g) / amt * 100) ∧
    (boost_driver_admits false p pc g amt tol = true ↔ -tol ≤ pc) := by
  refine ⟨?_, by simp [boost_driver_admits], by simp [boost_driver_admits]⟩
  unfold boost_candidate
  rw [hfwd, hrev]
  simp only [hbest, htgt]
  by_cases hc : -tol ≤ (round2 draw * sprice * bprice - round2 draw) / round2 draw * 100
  · simp only [if_pos hc, Option.isSome_some, true_iff]
    exact hc
  · simp only [if_neg hc, Option.isSome_none, Bool.false_eq_true, false_iff]
    exact hc

/-- C8 witness: Scenario C at the configured 1 percent tolerance: a 1.5
percent loss (prices 1 and 0.985) is discarded and a 0.5 percent loss
(prices 1 and 0.995) is admitted. -/
theorem boost_loss_tolerance_inclusive_witness :
    (boost_candidate VOLUME_BOOSTING.target_dex VOLUME_BOOSTING.loss_tolerance
        cex_boost_prices_bad "MON" "USDC" 8).isSome = false ∧
    (boost_candidate VOLUME_BOOSTING.target_dex VOLUME_BOOSTING.loss_tolerance
        cex_boost_prices "MON" "USDC" 8).isSome = true := by
  have hr8 : round2 8 = 8 := by norm_num [round2, round_eq]
  have hbad := boost_loss_tolerance_inclusive VOLUME_BOOSTING.target_dex "MON" "USDC"
    VOLUME_BOOSTING.loss_tolerance 8 cex_boost_prices_bad
    [("hakifi", 1)] [("monda", 985 / 1000)] "hakifi" 1 (985 / 1000)
    (by simp [pm_lookup, cex_boost_prices_bad, List.find?])
    (by norm_num [boost_best_sell])
    (by simp [pm_lookup, cex_boost_prices_bad, List.find?])
    (by simp [venue_lookup, VOLUME_BOOSTING.target_dex, List.find?])
    0 0 0 0
  have hok := boost_loss_tolerance_inclusive VOLUME_BOOSTING.target_dex "MON" "USDC"
    VOLUME_BOOSTING.loss_tolerance 8 cex_boost_prices
    [("hakifi", 1)] [("monda", 995 / 1000)] "hakifi" 1 (995 / 1000)
    (by simp [pm_lookup, cex_boost_prices, List.find?])
    (by norm_num [boost_best_sell])
    (by simp [pm_lookup, cex_boost_prices, List.find?])
    (by simp [venue_lookup, VOLUME_BOOSTING.target_dex, List.find?])
    0 0 0 0
  constructor
  · rw [Bool.eq_false_iff, Ne, hbad.1, hr8]
    norm_num [VOLUME_BOOSTING.loss_tolerance]
  · rw [hok.1, hr8]
    norm_num [VOLUME_BOOSTING.loss_tolerance]

/-! C9. The claim states that raising minProfitThreshold never increases the
admitted arbitrage opportunities for a fixed price map. -/

/-- A reverse-leg candidate admitted at the higher threshold is admitted
unchanged at any lower threshold. -/
theorem arb_candidate_mono (t1 t2 amax : ℚ) (din dout : ℕ)
    (price_of : String → String → String → ℤ → PriceResult)
    (token_in token_out sdex : String) (bout : ℤ) (d : String) (o : Opportunity)
    (h : t1 ≤ t2)
    (hc : arb_candidate t2 amax din dout price_of token_in token_out sdex bout d
      = some o) :
    arb_candidate t1 amax din dout price_of token_in token_out sdex bout d = some o := by
  simp only [arb_candidate] at hc ⊢
  by_cases hval : 0 < (price_of d token_out token_in bout).price ∧
      0 < (price_of d token_out token_in bout).amount_out
  · rw [if_pos hval] at hc ⊢
    by_cases hth : t2 < ((price_of d token_out token_in bout).amount_out : ℚ)
        / 10 ^ din - amax
    · rw [if_pos hth] at hc
      rw [if_pos (lt_of_le_of_lt h hth)]
      exact hc
    · rw [if_neg hth] at hc
      exact absurd hc (by simp)
  · rw [if_neg hval] at hc
    exact absurd hc (by simp)

/-- C9: for a fixed price map, every opportunity emitted at the higher
threshold is also emitted at the lower threshold, and the emitted list never
grows when the threshold is raised. -/
theorem arbitrage_threshold_monotone (dex_names : List String) (t1 t2 amax : ℚ)
    (din dout : ℕ) (price_of : String → String → String → ℤ → PriceResult)
    (token_in token_out : String) (h : t1 ≤ t2) :
    (∀ o ∈ check_pair_price_difference dex_names t2 amax din dout price_of
        token_in token_out,
      o ∈ check_pair_price_difference dex_names t1 amax din dout price_of
        token_in token_out) ∧
    (check_pair_price_difference dex_names t2 amax din dout price_of
        token_in token_out).length
      ≤ (check_pair_price_difference dex_names t1 amax din dout price_of
        token_in token_out).length := by
  unfold check_pair_price_difference
  by_cases he : ((dex_names.map (fun d => (d, price_of d token_in token_out
      (Int.floor (amax * 10 ^ din))))).filter (fun x => decide (0 < x.2.price))).isEmpty
  · simp only [if_pos he]
    exact ⟨fun o ho => ho, le_refl _⟩
  · simp only [if_neg he]
    by_cases hb : (best_sell_fold ((dex_names.map (fun d => (d, price_of d token_in
        token_out (Int.floor (amax * 10 ^ din))))).filter
        (fun x => decide (0 < x.2.price)))).1 ≤ 0 ∨
      (best_sell_fold ((dex_names.map (fun d => (d, price_of d token_in token_out
        (Int.floor (amax * 10 ^ din))))).filter
        (fun x => decide (0 < x.2.price)))).2.2 ≤ 0
    · simp only [if_pos hb]
      exact ⟨fun o ho => ho, le_refl _⟩
    · simp only [if_neg hb]
      constructor
      · intro o ho
        rw [sort_by_profit_desc, List.mem_mergeSort, List.mem_filterMap] at ho ⊢
        obtain ⟨d, hd, hcand⟩ := ho
        exact ⟨d, hd, arb_candidate_mono t1 t2 amax din dout price_of token_in
          token_out _ _ d o h hcand⟩
      · simp only [sort_by_profit_desc, List.length_mergeSort]
        exact length_filterMap_mono _ _
          (fun d o => arb_candidate_mono t1 t2 amax din dout price_of token_in
            token_out _ _ d o h) _

/-- C9 witness: on the concrete quote environment, raising the threshold from
the configured 0.05 to 2 leaves the emitted list no longer. -/
theorem arbitrage_threshold_monotone_witness :
    (check_pair_price_difference ["hakifi"] 2 ARBITRAGE_CONFIG.max_trade_amount
        18 6 cex_price_of "MON" "USDC").length
      ≤ (check_pair_price_difference ["hakifi"] ARBITRAGE_CONFIG.min_profit_threshold
        ARBITRAGE_CONFIG.max_trade_amount 18 6 cex_price_of "MON" "USDC").length :=
  (arbitrage_threshold_monotone ["hakifi"] ARBITRAGE_CONFIG.min_profit_threshold 2
    ARBITRAGE_CONFIG.max_trade_amount 18 6 cex_price_of "MON" "USDC"
    (by norm_num [ARBITRAGE_CONFIG.min_profit_threshold])).2

/-! C2. The claim states that every opportunity reaching execution has
tradeAmount > 0 and sellVenue distinct from buyVenue. -/

/-- C2 counterexample: under the cex_price_of quotes the arbitrage evaluator
emits exactly one opportunity, which sells and buys back on the same venue
hakifi (the reverse loop at price_monitor.py lines 428-441 iterates over all
venues, the best sell venue included, and no code compares the two), and the
driver gate of arbitrage_bot.py lines 361-373 admits it for execution. -/
theorem same_venue_opportunity_reaches_execution :
    check_pair_price_difference ["hakifi"] ARBITRAGE_CONFIG.min_profit_threshold
        ARBITRAGE_CONFIG.max_trade_amount 18 6 cex_price_of "MON" "USDC"
      = [cex_same_venue_opp] ∧
    cex_same_venue_opp.sell_dex = cex_same_venue_opp.buy_dex ∧
    arb_admission cex_same_venue_opp.expected_profit (1 / 1000)
      ARBITRAGE_CONFIG.min_profit_threshold = true := by
  refine ⟨?_, rfl, by norm_num [arb_admission, cex_same_venue_opp,
    ARBITRAGE_CONFIG.min_profit_threshold]⟩
  have hs : ("USDC" : String) = "MON" ↔ False := iff_false_intro (by decide)
  norm_num [check_pair_price_difference, cex_price_of, best_sell_fold, arb_candidate,
    sort_by_profit_desc, cex_same_venue_opp, ARBITRAGE_CONFIG.min_profit_threshold,
    ARBITRAGE_CONFIG.max_trade_amount, List.filter_cons, List.filterMap_cons,
    List.mergeSort_singleton, hs]

/-- Every opportunity the arbitrage evaluator emits carries the fixed
configured trade amount. -/
theorem arb_candidate_amount (t amax : ℚ) (din dout : ℕ)
    (price_of : String → String → String → ℤ → PriceResult)
    (token_in token_out sdex : String) (bout : ℤ) (d : String) (o : Opportunity)
    (hc : arb_candidate t amax din dout price_of token_in token_out sdex bout d
      = some o) :
    o.max_trade_amount = amax := by
  simp only [arb_candidate] at hc
  split_ifs at hc
  injection hc with h3
  subst h3
  rfl

/-- Membership in the arbitrage list forces the configured trade amount. -/
theorem check_pair_amount_eq (dex_names : List String) (t amax : ℚ) (din dout : ℕ)
    (price_of : String → String → String → ℤ → PriceResult)
    (token_in token_out : String) (o : Opportunity)
    (ho : o ∈ check_pair_price_difference dex_names t amax din dout price_of
      token_in token_out) :
    o.max_trade_amount = amax := by
  simp only [check_pair_price_difference] at ho
  split at ho
  · exact absurd ho (List.not_mem_nil o)
  · split at ho
    · exact absurd ho (List.not_mem_nil o)
    · rw [sort_by_profit_desc, List.mem_mergeSort, List.mem_filterMap] at ho
      obtain ⟨d, _, hc⟩ := ho
      exact arb_candidate_amount t amax din dout price_of token_in token_out _ _ d o hc

/-- Every boosting candidate carries the rounded random draw as its amount. -/
theorem boost_candidate_amount (target : String) (tol : ℚ) (prices : PriceMap)
    (token_in token_out : String) (draw : ℚ) (o : Opportunity)
    (hc : boost_candidate target tol prices token_in token_out draw = some o) :
    o.max_trade_amount = round2 draw := by
  cases hf : pm_lookup prices (token_in, token_out) with
  | none => simp [boost_candidate, hf] at hc
  | some fwd =>
    rcases hbs : boost_best_sell fwd with ⟨obs, sp⟩
    cases obs with
    | none => simp [boost_candidate, hf, hbs] at hc
    | some sdex =>
      cases hr : pm_lookup prices (token_out, token_in) with
      | none => simp [boost_candidate, hf, hbs, hr] at hc
      | some rev =>
        cases ht : venue_lookup rev target with
        | none => simp [boost_candidate, hf, hbs, hr, ht] at hc
        | some bp =>
          simp only [boost_candidate, hf, hbs, hr, ht] at hc
          split_ifs at hc
          injection hc with h3
          subst h3
          rfl

/-- Membership in the boosting list forces the amount of one of the draws. -/
theorem find_volume_amount (enabled : Bool) (dex_names : List String)
    (target : String) (tol : ℚ) (pairs : List (String × String)) (draws : List ℚ)
    (prices : PriceMap) (o : Opportunity)
    (ho : o ∈ find_volume_boosting_opportunities enabled dex_names target tol pairs
      draws prices) :
    ∃ r ∈ draws, o.max_trade_amount = round2 r := by
  simp only [find_volume_boosting_opportunities] at ho
  split at ho
  · exact absurd ho (List.not_mem_nil o)
  · split at ho
    · exact absurd ho (List.not_mem_nil o)
    · rw [sort_by_pct_desc, List.mem_mergeSort, List.mem_filterMap] at ho
      obtain ⟨pd, hpd, hc⟩ := ho
      exact ⟨pd.2, (List.of_mem_zip hpd).2,
        boost_candidate_amount target tol prices pd.1.1 pd.1.2 pd.2 o hc⟩

/-- C2 amended: the tradeAmount half of the invariant holds: every arbitrage
opportunity carries the positive configured amount and every boosting
opportunity carries a rounded draw from the configured positive range; the
venue-distinctness half is refuted by the counterexample. -/
theorem trade_amount_positive (dex_names : List String) (t amax : ℚ) (din dout : ℕ)
    (price_of : String → String → String → ℤ → PriceResult)
    (token_in token_out : String) (enabled : Bool) (target : String) (tol : ℚ)
    (pairs : List (String × String)) (draws : List ℚ) (prices : PriceMap)
    (hamax : 0 < amax) (hdraws : ∀ r ∈ draws, 1 ≤ r) :
    (∀ o ∈ check_pair_price_difference dex_names t amax din dout price_of
        token_in token_out, 0 < o.max_trade_amount) ∧
    (∀ o ∈ find_volume_boosting_opportunities enabled dex_names target tol pairs
        draws prices, 0 < o.max_trade_amount) := by
  constructor
  · intro o ho
    rw [check_pair_amount_eq dex_names t amax din dout price_of token_in token_out o ho]
    exact hamax
  · intro o ho
    obtain ⟨r, hr, heq⟩ := find_volume_amount enabled dex_names target tol pairs draws
      prices o ho
    rw [heq]
    exact round2_pos r (hdraws r hr)

/-- C2 witness: positivity evaluated on the concrete boosting run with the
configured minimum draw of 7. -/
theorem trade_amount_positive_witness :
    0 < cex_same_venue_opp.max_trade_amount :=
  (trade_amount_positive ["hakifi"] ARBITRAGE_CONFIG.min_profit_threshold
      ARBITRAGE_CONFIG.max_trade_amount 18 6 cex_price_of "MON" "USDC"
      true VOLUME_BOOSTING.target_dex VOLUME_BOOSTING.loss_tolerance [] [] []
      (by norm_num [ARBITRAGE_CONFIG.max_trade_amount]) (by simp)).1
    cex_same_venue_opp
    (by
      have hs : ("USDC" : String) = "MON" ↔ False := iff_false_intro (by decide)
      norm_num [check_pair_price_difference, cex_price_of, best_sell_fold,
        arb_candidate, sort_by_profit_desc, cex_same_venue_opp,
        ARBITRAGE_CONFIG.min_profit_threshold, ARBITRAGE_CONFIG.max_trade_amount,
        List.filter_cons, List.filterMap_cons, List.mergeSort_singleton, hs])

/-! C5. The claim states that re-running the evaluator on the same frozen
PriceMap yields identical ordered opportunity lists for both policies. -/

/-- C5 counterexample: two boosting runs over the same frozen price map whose
fresh random draws differ (7 versus 8 MON, both inside the configured range)
return different opportunity lists: the amount-derived fields follow the
draw (price_monitor.py lines 699-700, 726, 748-752). -/
theorem boosting_evaluator_draw_dependent :
    find_volume_boosting_opportunities true DEX_ROUTERS_names
        VOLUME_BOOSTING.target_dex VOLUME_BOOSTING.loss_tolerance
        [("MON", "USDC")] [7] cex_boost_prices
      ≠
    find_volume_boosting_opportunities true DEX_ROUTERS_names
        VOLUME_BOOSTING.target_dex VOLUME_BOOSTING.loss_tolerance
        [("MON", "USDC")] [8] cex_boost_prices := by
  have h7 : round2 7 = 7 := by norm_num [round2, round_eq]
  have h8 : round2 8 = 8 := by norm_num [round2, round_eq]
  have hc : DEX_ROUTERS_names.contains VOLUME_BOOSTING.target_dex = true := by decide
  have t1 : (("MON" : String) = "USDC") = False := eq_false (by decide)
  have t2 : (("USDC" : String) = "MON") = False := eq_false (by decide)
  have t3 : (("monda" : String) ∈ DEX_ROUTERS_names) = True := eq_true (by decide)
  have e7 : find_volume_boosting_opportunities true DEX_ROUTERS_names
      VOLUME_BOOSTING.target_dex VOLUME_BOOSTING.loss_tolerance
      [("MON", "USDC")] [7] cex_boost_prices
      = [{ type := "volume_boosting", token_in := "MON", token_out := "USDC",
           token_middle := none, buy_dex := "monda", sell_dex := "hakifi",
           max_trade_amount := 7, expected_profit := -(7 / 200),
           expected_profit_percentage := -(1 / 2), token_out_amount := 7,
           final_token_in := 1393 / 200 }] := by
    norm_num [find_volume_boosting_opportunities, hc, boost_candidate, pm_lookup,
      venue_lookup, boost_best_sell, cex_boost_prices, List.find?, h7,
      sort_by_pct_desc, List.mergeSort_singleton, VOLUME_BOOSTING.target_dex,
      VOLUME_BOOSTING.loss_tolerance, List.filterMap_cons, t1, t2, t3]
  have e8 : find_volume_boosting_opportunities true DEX_ROUTERS_names
      VOLUME_BOOSTING.target_dex VOLUME_BOOSTING.loss_tolerance
      [("MON", "USDC")] [8] cex_boost_prices
      = [{ type := "volume_boosting", token_in := "MON", token_out := "USDC",
           token_middle := none, buy_dex := "monda", sell_dex := "hakifi",
           max_trade_amount := 8, expected_profit := -(1 / 25),
           expected_profit_percentage := -(1 / 2), token_out_amount := 8,
           final_token_in := 199 / 25 }] := by
    norm_num [find_volume_boosting_opportunities, hc, boost_candidate, pm_lookup,
      venue_lookup, boost_best_sell, cex_boost_prices, List.find?, h8,
      sort_by_pct_desc, List.mergeSort_singleton, VOLUME_BOOSTING.target_dex,
      VOLUME_BOOSTING.loss_tolerance, List.filterMap_cons, t1, t2, t3]
  rw [e7, e8]
  simp

/-- The boosting candidate, projected to venues and percentage, does not
depend on the random draw (as long as the rounded draw is nonzero, the
percentage algebraically cancels the amount). -/
theorem boost_candidate_proj (target : String) (tol : ℚ) (prices : PriceMap)
    (token_in token_out : String) (r1 r2 : ℚ)
    (h1 : round2 r1 ≠ 0) (h2 : round2 r2 ≠ 0) :
    (boost_candidate target tol prices token_in token_out r1).map opp_venue_pct
      = (boost_candidate target tol prices token_in token_out r2).map opp_venue_pct := by
  cases hf : pm_lookup prices (token_in, token_out) with
  | none => simp [boost_candidate, hf]
  | some fwd =>
    rcases hbs : boost_best_sell fwd with ⟨obs, sp⟩
    cases obs with
    | none => simp [boost_candidate, hf, hbs]
    | some sdex =>
      cases hr : pm_lookup prices (token_out, token_in) with
      | none => simp [boost_candidate, hf, hbs, hr]
      | some rev =>
        cases ht : venue_lookup rev target with
        | none => simp [boost_candidate, hf, hbs, hr, ht]
        | some bp =>
          have key : ∀ t : ℚ, t ≠ 0 →
              (t * sp * bp - t) / t * 100 = (sp * bp - 1) * 100 := by
            intro t ht0
            field_simp
            ring
          simp only [boost_candidate, hf, hbs, hr, ht]
          rw [key _ h1, key _ h2]
          by_cases hacc : -tol ≤ (sp * bp - 1) * 100
          · simp [if_pos hacc, opp_venue_pct]
          · simp [if_neg hacc]

/-- C5 amended: evaluation is a deterministic function of the price map and
the drawn amount; for the single trading pair the driver passes per call,
two runs with different draws agree on venues, profit percentages and order,
only the amount-derived fields following the fresh draw. -/
theorem boosting_evaluator_deterministic_up_to_draw
    (dex_names : List String) (target token_in token_out : String) (tol : ℚ)
    (prices : PriceMap) (r1 r2 : ℚ) (h1 : round2 r1 ≠ 0) (h2 : round2 r2 ≠ 0) :
    (find_volume_boosting_opportunities true dex_names target tol
        [(token_in, token_out)] [r1] prices).map opp_venue_pct
      = (find_volume_boosting_opportunities true dex_names target tol
        [(token_in, token_out)] [r2] prices).map opp_venue_pct := by
  have hproj := boost_candidate_proj target tol prices token_in token_out r1 r2 h1 h2
  cases hcont : dex_names.contains target with
  | false =>
    have hmem : target ∉ dex_names := by simpa using hcont
    simp [find_volume_boosting_opportunities, hmem]
  | true =>
    have hmem : target ∈ dex_names := by simpa using hcont
    cases c1 : boost_candidate target tol prices token_in token_out r1 with
    | none =>
      cases c2 : boost_candidate target tol prices token_in token_out r2 with
      | none =>
        simp [find_volume_boosting_opportunities, hmem, c1, c2, sort_by_pct_desc]
      | some o2 => rw [c1, c2] at hproj; simp at hproj
    | some o1 =>
      cases c2 : boost_candidate target tol prices token_in token_out r2 with
      | none => rw [c1, c2] at hproj; simp at hproj
      | some o2 =>
        rw [c1, c2] at hproj
        simp only [Option.map_some', Option.some.injEq] at hproj
        simp [find_volume_boosting_opportunities, hmem, c1, c2, sort_by_pct_desc,
          List.mergeSort_singleton, hproj]

/-- C5 witness: the two runs of the counterexample agree once projected to
venues and percentage. -/
theorem boosting_evaluator_deterministic_up_to_draw_witness :
    (find_volume_boosting_opportunities true DEX_ROUTERS_names
        VOLUME_BOOSTING.target_dex VOLUME_BOOSTING.loss_tolerance
        [("MON", "USDC")] [7] cex_boost_prices).map opp_venue_pct
      = (find_volume_boosting_opportunities true DEX_ROUTERS_names
        VOLUME_BOOSTING.target_dex VOLUME_BOOSTING.loss_tolerance
        [("MON", "USDC")] [8] cex_boost_prices).map opp_venue_pct :=
  boosting_evaluator_deterministic_up_to_draw DEX_ROUTERS_names
    VOLUME_BOOSTING.target_dex "MON" "USDC" VOLUME_BOOSTING.loss_tolerance
    cex_boost_prices 7 8
    (by norm_num [round2, round_eq]) (by norm_num [round2, round_eq])

end MonadDex
